import Mathlib

/-!
Verification development for the vision-agents-mvp repository.

The repository consists of seven Python modules: two FastAPI applications
(`app.py`, a WebSocket-first voice-agent server, and `main.py`, a REST API
for coaching sessions), four coach-service modules
(`golf_coach_service.py`, `general_coach_service.py`,
`fitness_coach_service.py`, `yoga_coach_service.py`) and a standalone
example (`general_coach_example.py`).  All of them build `Agent` objects
from the external `vision_agents` SDK and wire them into per-call
sessions.

The embedding below models:
  * Python dictionaries used as session maps, as association lists over
    `String` keys (`mapLookup` / `mapErase` / `mapInsert`);
  * the SDK surface each module touches, as the `AgentConfig` record
    (constructor arguments of `vision_agents.core.Agent`) and the `Step`
    inductive (the SDK invocations and in-process bookkeeping actions a
    code path performs, in order);
  * the state-mutating handlers of both FastAPI apps as pure functions on
    explicit session-map states.
-/

set_option maxHeartbeats 1000000
set_option maxRecDepth 100000

/-! ## Association-list model of Python dictionaries keyed by strings -/

/-- Lookup in a string-keyed dictionary (first matching entry). -/
def mapLookup {α : Type} (m : List (String × α)) (k : String) : Option α :=
  match m with
  | [] => none
  | (k1, v) :: rest => if k1 = k then some v else mapLookup rest k

/-- `dict.pop(k, None)` / `del dict[k]`: remove every entry with key `k`. -/
def mapErase {α : Type} (m : List (String × α)) (k : String) : List (String × α) :=
  match m with
  | [] => []
  | (k1, v) :: rest => if k1 = k then mapErase rest k else (k1, v) :: mapErase rest k

/-- `dict[k] = v`: bind `k` to `v`, replacing any previous binding. -/
def mapInsert {α : Type} (m : List (String × α)) (k : String) (v : α) : List (String × α) :=
  (k, v) :: mapErase m k

/-! ## SDK surface: the arguments of the `vision_agents.core.Agent` constructor -/

/-- `vision_agents.core.User(...)`. -/
structure SdkUser where
  id : String
  name : String

/-- The media edge passed to the `Agent` constructor; the repository only
ever uses `getstream.Edge()` from `vision_agents.plugins`. -/
inductive EdgeSpec
  | getstreamEdge

/-- The LLM passed to the `Agent` constructor; the repository only ever
uses `gemini.Realtime(...)` from `vision_agents.plugins`, optionally with
an `fps` argument. -/
inductive LLMSpec
  | geminiRealtime (fps : Option Nat)

/-- A video processor passed to the `Agent` constructor; the repository
only ever uses `ultralytics.YOLOPoseProcessor(model_path=...)` from
`vision_agents.plugins`. -/
inductive ProcessorSpec
  | yoloPose (model_path : String)

/-- The arguments with which a module invokes the SDK `Agent` constructor. -/
structure AgentConfig where
  edge : EdgeSpec
  agent_user : SdkUser
  instructions : String
  llm : LLMSpec
  processors : List ProcessorSpec := []

/-! ## Step traces

`Step` records, in order, the externally visible actions a code path of
the repository performs: invocations of the SDK (constructing an agent,
creating the agent user, creating / joining a call, opening the demo
interface, prompting the LLM, finishing the agent) and in-process
bookkeeping (storing into / popping from a module-level session map).

The three `local*` constructors stand for an LLM inference, a media
transport operation, or a pose-estimation computation implemented by the
repository itself rather than delegated to the SDK; they exist so that
their absence from every trace is a meaningful statement.  -/
inductive Step
  | constructAgent (cfg : AgentConfig)
  | createUser
  | createCall (call_type : String) (call_id : String)
  | getDemoUrl
  | openDemo
  | joinCall
  | simpleResponse (msg : String)
  | finishAgent
  | storeSession (store : String) (key : String)
  | popSession (store : String) (key : String)
  | localLLMInference
  | localMediaTransport
  | localPoseEstimation

/-- Does the step construct an agent object? -/
def step_is_construct : Step → Bool
  | .constructAgent _ => true
  | _ => false

/-- Does the step join the agent to a call? -/
def step_is_join : Step → Bool
  | .joinCall => true
  | _ => false

/-- Does the step run `agent.finish()`? -/
def step_is_finish : Step → Bool
  | .finishAgent => true
  | _ => false

/-- Does the step record something in a module-level in-process store? -/
def step_is_store : Step → Bool
  | .storeSession _ _ => true
  | _ => false

/-- Steps that perform an LLM response, a media-edge operation, or a
pose-detection computation (whether via the SDK or locally). -/
def step_is_llm_media_or_pose : Step → Bool
  | .createCall _ _ => true
  | .getDemoUrl => true
  | .openDemo => true
  | .joinCall => true
  | .simpleResponse _ => true
  | .localLLMInference => true
  | .localMediaTransport => true
  | .localPoseEstimation => true
  | _ => false

/-- Steps that are invocations of the external `vision_agents` SDK. -/
def step_is_sdk_invocation : Step → Bool
  | .constructAgent _ => true
  | .createUser => true
  | .createCall _ _ => true
  | .getDemoUrl => true
  | .openDemo => true
  | .joinCall => true
  | .simpleResponse _ => true
  | .finishAgent => true
  | _ => false

/-- Steps that would be inference / transport / pose estimation computed
by the repository itself.  No trace of the repository contains one. -/
def step_is_local_computation : Step → Bool
  | .localLLMInference => true
  | .localMediaTransport => true
  | .localPoseEstimation => true
  | _ => false

/-- The call ids handed to `agent.create_call` along a trace, in order. -/
def createCallIds (steps : List Step) : List String :=
  steps.filterMap (fun s =>
    match s with
    | .createCall _ cid => some cid
    | _ => none)

/-- The `(store, key)` pairs written to module-level session maps along a
trace, in order. -/
def storeTargets (steps : List Step) : List (String × String) :=
  steps.filterMap (fun s =>
    match s with
    | .storeSession st k => some (st, k)
    | _ => none)

/-- The agent configurations constructed along a trace, in order. -/
def constructedConfigs (steps : List Step) : List AgentConfig :=
  steps.filterMap (fun s =>
    match s with
    | .constructAgent c => some c
    | _ => none)

/-! ## golf_coach_service.py -/

namespace GolfCoachService

/-- `create_golf_agent` in golf_coach_service.py: the `Agent(...)`
constructor arguments. -/
def create_golf_agent : AgentConfig :=
  { edge := .getstreamEdge,
    agent_user := { id := "golf-coach-agent", name := "AI Golf Coach" },
    instructions :=
      "You are an expert AI golf coach. Your role is to:\n1. Analyze the user\x27s golf swing using pose detection\n2. Provide constructive, specific feedback on form and technique\n3. Focus on key elements: grip, stance, backswing, downswing, follow-through\n4. Keep feedback clear, actionable, and encouraging\n5. Use simple language without excessive technical jargon\nWhen analyzing, mention specific body positions and movements you observe.",
    llm := .geminiRealtime (some 3),
    processors := [ .yoloPose "yolo11n-pose.pt" ] }

/-- The success path of `join_golf_call(agent, call_type, call_id)`:
create the agent user, create the call, join it, send the greeting, run
`agent.finish()` until the call ends. -/
def join_golf_call_steps (call_type : String) (call_id : String) : List Step :=
  [ Step.createUser,
    Step.createCall call_type call_id,
    Step.joinCall,
    Step.simpleResponse "Hi! I\x27m your AI golf coach. Show me your golf swing when you\x27re ready, and I\x27ll analyze your form and provide helpful feedback to improve your technique.",
    Step.finishAgent ]

/-- The standalone execution path of golf_coach_service.py
(`AgentLauncher(create_agent=create_golf_agent, join_call=join_golf_call)`):
construct the agent, then run `join_golf_call`. -/
def service_steps (call_type : String) (call_id : String) : List Step :=
  Step.constructAgent create_golf_agent :: join_golf_call_steps call_type call_id

end GolfCoachService

/-! ## general_coach_service.py -/

namespace GeneralCoachService

/-- `create_general_agent` in general_coach_service.py. -/
def create_general_agent : AgentConfig :=
  { edge := .getstreamEdge,
    agent_user := { id := "general-agent", name := "AI Assistant" },
    instructions :=
      "You\x27re a friendly voice AI assistant. Your role is to:\n1. Have natural, engaging conversations with users\n2. Keep responses short and conversational\n3. Don\x27t use special characters or complex formatting\n4. Be helpful, empathetic, and supportive\n5. Ask follow-up questions to better understand user needs\n6. Maintain a warm, approachable tone\nRemember: You\x27re having a voice conversation, so keep things natural and flowing.",
    llm := .geminiRealtime none }

/-- The success path of `join_general_call(agent, call_type, call_id)`. -/
def join_general_call_steps (call_type : String) (call_id : String) : List Step :=
  [ Step.createUser,
    Step.createCall call_type call_id,
    Step.joinCall,
    Step.simpleResponse "Hey there! I\x27m your AI assistant. How can I help you today? Feel free to chat about anything on your mind.",
    Step.finishAgent ]

/-- The standalone execution path of general_coach_service.py. -/
def service_steps (call_type : String) (call_id : String) : List Step :=
  Step.constructAgent create_general_agent :: join_general_call_steps call_type call_id

end GeneralCoachService

/-! ## fitness_coach_service.py -/

namespace FitnessCoachService

/-- `create_fitness_agent` in fitness_coach_service.py. -/
def create_fitness_agent : AgentConfig :=
  { edge := .getstreamEdge,
    agent_user := { id := "fitness-agent", name := "AI Fitness Trainer" },
    instructions :=
      "You are an expert AI fitness trainer. Your role is to:\n1. Monitor exercise form using pose detection\n2. Provide real-time feedback on technique and posture\n3. Focus on proper alignment, range of motion, and movement quality\n4. Prevent injury by correcting poor form immediately\n5. Encourage proper breathing and controlled movements\n6. Count reps and maintain motivation\n7. Adapt guidance based on the specific exercise being performed\nBe supportive, energetic, and clear with your instructions.",
    llm := .geminiRealtime (some 3),
    processors := [ .yoloPose "yolo11n-pose.pt" ] }

/-- The success path of `join_fitness_call(agent, call_type, call_id)`. -/
def join_fitness_call_steps (call_type : String) (call_id : String) : List Step :=
  [ Step.createUser,
    Step.createCall call_type call_id,
    Step.joinCall,
    Step.simpleResponse "Hey! I\x27m your AI fitness trainer. I\x27ll watch your form and help you exercise safely and effectively. What exercise would you like to work on today?",
    Step.finishAgent ]

/-- The standalone execution path of fitness_coach_service.py. -/
def service_steps (call_type : String) (call_id : String) : List Step :=
  Step.constructAgent create_fitness_agent :: join_fitness_call_steps call_type call_id

end FitnessCoachService

/-! ## yoga_coach_service.py -/

namespace YogaCoachService

/-- `create_yoga_agent` in yoga_coach_service.py. -/
def create_yoga_agent : AgentConfig :=
  { edge := .getstreamEdge,
    agent_user := { id := "yoga-agent", name := "AI Yoga Instructor" },
    instructions :=
      "You are a compassionate AI yoga instructor. Your role is to:\n1. Guide users through yoga poses with mindfulness\n2. Monitor alignment and posture using pose detection\n3. Provide gentle, encouraging corrections\n4. Emphasize breath awareness and mindful movement\n5. Ensure poses are safe and accessible for all levels\n6. Offer modifications for different flexibility levels\n7. Create a calming, supportive atmosphere\n8. Focus on the journey, not perfection\nUse soothing language and remind users to listen to their bodies.",
    llm := .geminiRealtime (some 3),
    processors := [ .yoloPose "yolo11n-pose.pt" ] }

/-- The success path of `join_yoga_call(agent, call_type, call_id)`. -/
def join_yoga_call_steps (call_type : String) (call_id : String) : List Step :=
  [ Step.createUser,
    Step.createCall call_type call_id,
    Step.joinCall,
    Step.simpleResponse "Namaste. I\x27m your AI yoga instructor. I\x27ll guide you through your practice and help you find proper alignment. Take a deep breath, and let me know what pose you\x27d like to work on, or if you\x27d like me to guide you through a sequence.",
    Step.finishAgent ]

/-- The standalone execution path of yoga_coach_service.py. -/
def service_steps (call_type : String) (call_id : String) : List Step :=
  Step.constructAgent create_yoga_agent :: join_yoga_call_steps call_type call_id

end YogaCoachService

/-! ## general_coach_example.py -/

namespace GeneralCoachExample

/-- `create_agent` in general_coach_example.py. -/
def create_agent : AgentConfig :=
  { edge := .getstreamEdge,
    agent_user := { id := "agent", name := "My happy AI friend" },
    instructions :=
      "You\x27re a voice AI assistant. Keep responses short and conversational. Don\x27t use special characters or formatting. Be friendly and helpful.",
    llm := .geminiRealtime none }

/-- The success path of `join_call(agent, call_type, call_id)` in
general_coach_example.py. -/
def join_call_steps (call_type : String) (call_id : String) : List Step :=
  [ Step.createUser,
    Step.createCall call_type call_id,
    Step.joinCall,
    Step.openDemo,
    Step.simpleResponse "chat with the user about them.",
    Step.finishAgent ]

/-- The standalone execution path of general_coach_example.py
(`AgentLauncher(create_agent=create_agent, join_call=join_call)`). -/
def service_steps (call_type : String) (call_id : String) : List Step :=
  Step.constructAgent create_agent :: join_call_steps call_type call_id

end GeneralCoachExample

/-! ## app.py — WebSocket-first voice agent server -/

/-- An `asyncio.Task` as app.py observes it: whether it is done and
whether `cancel()` has been requested on it. -/
structure TaskState where
  done : Bool
  cancelled : Bool

/-- The two module-level session maps of app.py:
`ACTIVE_SESSIONS : Dict[str, Agent]` and
`BACKGROUND_TASKS : Dict[str, asyncio.Task]`. -/
structure AppState where
  ACTIVE_SESSIONS : List (String × AgentConfig)
  BACKGROUND_TASKS : List (String × TaskState)

namespace App

/-- `create_agent(session_id)` in app.py: the `Agent(...)` constructor
arguments, with the f-strings `f"agent-\x7bsession_id\x7d"` and
`f"AI Friend \x7bsession_id[:8]\x7d"` spelled out. -/
def create_agent (session_id : String) : AgentConfig :=
  { edge := .getstreamEdge,
    agent_user := { id := "agent-" ++ session_id, name := "AI Friend " ++ session_id.take 8 },
    instructions :=
      "You\x27re a voice AI assistant. Keep responses short and conversational. Don\x27t use special characters or formatting. Be friendly and helpful.",
    llm := .geminiRealtime none }

/-- The `call_id = session_id` assignment inside `agent_worker`. -/
def agent_worker_call_id (session_id : String) : String := session_id

/-- The success path of `agent_worker(session_id, call_type)` in app.py:
create the call (under `call_id = session_id`), join it, open the demo
interface, prompt the LLM, run `agent.finish()` until the call ends, then
the `finally` block runs `agent.finish()` again and pops the session from
both module-level maps. -/
def agent_worker_steps (session_id : String) (call_type : String) : List Step :=
  [ Step.createCall call_type (agent_worker_call_id session_id),
    Step.joinCall,
    Step.openDemo,
    Step.simpleResponse "chat with the user about them.",
    Step.finishAgent,
    Step.finishAgent,
    Step.popSession "ACTIVE_SESSIONS" session_id,
    Step.popSession "BACKGROUND_TASKS" session_id ]

/-- The success path of a full `/ws` session in `websocket_endpoint`:
`create_agent` (constructor plus `create_user`), registration of the
agent and of the spawned `agent_worker` task in the module-level maps,
the worker body (spawned with the default `call_type="default"`), and the
handler\x27s `finally` block popping both maps. -/
def websocket_session_steps (session_id : String) : List Step :=
  [ Step.constructAgent (create_agent session_id),
    Step.createUser,
    Step.storeSession "ACTIVE_SESSIONS" session_id,
    Step.storeSession "BACKGROUND_TASKS" session_id ]
  ++ agent_worker_steps session_id "default"
  ++ [ Step.popSession "ACTIVE_SESSIONS" session_id,
       Step.popSession "BACKGROUND_TASKS" session_id ]

/-- The `finally` block of `websocket_endpoint`, which runs on every
termination of the `/ws` handler (client `disconnect` command,
`WebSocketDisconnect`, worker completion, or any exception): look up the
session\x27s background task, cancel and await it if it is not done, then
pop the session from both maps.  Returns the new state together with the
final state of the session\x27s task object (if one was registered). -/
def ws_finally (s : AppState) (session_id : String) : AppState × Option TaskState :=
  let task0 := mapLookup s.BACKGROUND_TASKS session_id
  let step1 : AppState × Option TaskState :=
    match task0 with
    | some t =>
      if t.done then (s, some t)
      else
        let t1 : TaskState := { done := true, cancelled := true }
        ({ s with BACKGROUND_TASKS := mapInsert s.BACKGROUND_TASKS session_id t1 }, some t1)
    | none => (s, none)
  ({ ACTIVE_SESSIONS := mapErase step1.1.ACTIVE_SESSIONS session_id,
     BACKGROUND_TASKS := mapErase step1.1.BACKGROUND_TASKS session_id },
   step1.2)

/-- Is the session\x27s task, as returned by `ws_finally`, no longer
pending?  (`true` when there was no task at all.) -/
def optTaskDone : Option TaskState → Bool
  | none => true
  | some t => t.done

/-- The first shutdown loop of `lifespan` in app.py: for every entry of
`BACKGROUND_TASKS`, if the task is not done, cancel and await it.
Returns the updated entries and the list of session ids whose task was
cancelled. -/
def cancel_tasks : List (String × TaskState) → List (String × TaskState) × List String
  | [] => ([], [])
  | (sid, t) :: rest =>
    let r := cancel_tasks rest
    if t.done then ((sid, t) :: r.1, r.2)
    else ((sid, { done := true, cancelled := true }) :: r.1, sid :: r.2)

/-- The second shutdown loop of `lifespan` in app.py: iterate over a
snapshot `ks` of the keys of `ACTIVE_SESSIONS`; pop each, and if an agent
was found, invoke `agent.finish()` on it.  Returns the remaining map and
the agents on which `finish()` was invoked, in order. -/
def shutdown_sessions : List (String × AgentConfig) → List String →
    List (String × AgentConfig) × List AgentConfig
  | m, [] => (m, [])
  | m, k :: ks =>
    match mapLookup m k with
    | some a =>
      let r := shutdown_sessions (mapErase m k) ks
      (r.1, a :: r.2)
    | none => shutdown_sessions m ks

/-- The result of the app.py lifespan shutdown sequence: the final state,
the session ids whose background task was cancelled, and the agents on
which `finish()` was invoked. -/
structure ShutdownResult where
  finalState : AppState
  cancelled_ids : List String
  finished_agents : List AgentConfig

/-- The shutdown half of `lifespan` in app.py: cancel all not-yet-done
background tasks, then pop every active session and finish its agent. -/
def lifespan_shutdown (s : AppState) : ShutdownResult :=
  let c := cancel_tasks s.BACKGROUND_TASKS
  let f := shutdown_sessions s.ACTIVE_SESSIONS (s.ACTIVE_SESSIONS.map Prod.fst)
  { finalState := { ACTIVE_SESSIONS := f.1, BACKGROUND_TASKS := c.1 },
    cancelled_ids := c.2,
    finished_agents := f.2 }

/-- Response model `SessionInfo` of app.py. -/
structure SessionInfo where
  session_id : String
  active : Bool
  agent_name : String
  task_running : Bool

/-- `GET /sessions/\x7bsession_id\x7d` in app.py: 404 when the id is not in
`ACTIVE_SESSIONS`, otherwise report the session (the state is returned
unchanged: the handler never mutates the maps). -/
def get_session (s : AppState) (session_id : String) :
    AppState × Except Nat SessionInfo :=
  match mapLookup s.ACTIVE_SESSIONS session_id with
  | none => (s, Except.error 404)
  | some agent =>
    let task := mapLookup s.BACKGROUND_TASKS session_id
    let task_running :=
      match task with
      | some t => !t.done
      | none => false
    (s, Except.ok
      { session_id := session_id,
        active := true,
        agent_name := agent.agent_user.name,
        task_running := task_running })

end App

/-! ## main.py — REST API for coaching sessions -/

namespace MainApp

/-- Request model `CallRequest` of main.py; `call_type` defaults to
`"default"`. -/
structure CallRequest where
  call_type : String := "default"

/-- Response model `CallResponse` of main.py. -/
structure CallResponse where
  call_id : String
  call_type : String
  call_url : String
  agent_type : String
  message : String
  created_at : String

/-- One value of the module-level `active_sessions` dictionary of
main.py: `\x7b"agent": ..., "call_type": ..., "agent_type": ...,
"created_at": ...\x7d`. -/
structure SessionRec where
  agent : AgentConfig
  call_type : String
  agent_type : String
  created_at : String

/-- The module-level `active_sessions : Dict[str, Dict]` of main.py. -/
abbrev MainState : Type := List (String × SessionRec)

/-- What a successful POST handler of main.py produces: the new
`active_sessions` state, the HTTP status code from the route decorator,
the `CallResponse` body, and the trace of actions performed. -/
structure HandlerResult where
  sessions : MainState
  status : Nat
  response : CallResponse
  steps : List Step

/-- `POST /golf` (`create_golf_session`) in main.py, success path.
`call_id` stands for the generated `str(uuid.uuid4())`; `call_url` for
the result of `agent.edge.get_demo_url(call)`; `created_at` for the
`datetime.now().isoformat()` taken when storing the session and
`resp_created_at` for the one taken by the `CallResponse` default
factory. -/
def create_golf_session (st : MainState) (call_id : String) (req : CallRequest)
    (call_url : String) (created_at : String) (resp_created_at : String) : HandlerResult :=
  let call_type := req.call_type
  let agent := GolfCoachService.create_golf_agent
  { sessions := mapInsert st call_id
      { agent := agent, call_type := call_type, agent_type := "golf", created_at := created_at },
    status := 201,
    response :=
      { call_id := call_id, call_type := call_type, call_url := call_url,
        agent_type := "golf",
        message := "Golf coaching session created successfully",
        created_at := resp_created_at },
    steps :=
      [ Step.constructAgent agent,
        Step.createUser,
        Step.createCall call_type call_id,
        Step.getDemoUrl,
        Step.storeSession "active_sessions" call_id ] }

/-- `POST /general` (`create_general_session`) in main.py, success path. -/
def create_general_session (st : MainState) (call_id : String) (req : CallRequest)
    (call_url : String) (created_at : String) (resp_created_at : String) : HandlerResult :=
  let call_type := req.call_type
  let agent := GeneralCoachService.create_general_agent
  { sessions := mapInsert st call_id
      { agent := agent, call_type := call_type, agent_type := "general", created_at := created_at },
    status := 201,
    response :=
      { call_id := call_id, call_type := call_type, call_url := call_url,
        agent_type := "general",
        message := "General chat session created successfully",
        created_at := resp_created_at },
    steps :=
      [ Step.constructAgent agent,
        Step.createUser,
        Step.createCall call_type call_id,
        Step.getDemoUrl,
        Step.storeSession "active_sessions" call_id ] }

/-- `POST /fitness` (`create_fitness_session`) in main.py, success path. -/
def create_fitness_session (st : MainState) (call_id : String) (req : CallRequest)
    (call_url : String) (created_at : String) (resp_created_at : String) : HandlerResult :=
  let call_type := req.call_type
  let agent := FitnessCoachService.create_fitness_agent
  { sessions := mapInsert st call_id
      { agent := agent, call_type := call_type, agent_type := "fitness", created_at := created_at },
    status := 201,
    response :=
      { call_id := call_id, call_type := call_type, call_url := call_url,
        agent_type := "fitness",
        message := "Fitness training session created successfully",
        created_at := resp_created_at },
    steps :=
      [ Step.constructAgent agent,
        Step.createUser,
        Step.createCall call_type call_id,
        Step.getDemoUrl,
        Step.storeSession "active_sessions" call_id ] }

/-- `POST /yoga` (`create_yoga_session`) in main.py, success path. -/
def create_yoga_session (st : MainState) (call_id : String) (req : CallRequest)
    (call_url : String) (created_at : String) (resp_created_at : String) : HandlerResult :=
  let call_type := req.call_type
  let agent := YogaCoachService.create_yoga_agent
  { sessions := mapInsert st call_id
      { agent := agent, call_type := call_type, agent_type := "yoga", created_at := created_at },
    status := 201,
    response :=
      { call_id := call_id, call_type := call_type, call_url := call_url,
        agent_type := "yoga",
        message := "Yoga instruction session created successfully",
        created_at := resp_created_at },
    steps :=
      [ Step.constructAgent agent,
        Step.createUser,
        Step.createCall call_type call_id,
        Step.getDemoUrl,
        Step.storeSession "active_sessions" call_id ] }

/-- Response model `SessionInfo` of main.py. -/
structure SessionInfo where
  call_id : String
  call_type : String
  agent_type : String
  status : String

/-- Response model `DeleteSessionResponse` of main.py. -/
structure DeleteSessionResponse where
  message : String
  call_id : String
  agent_type : String

/-- `GET /session/\x7bcall_id\x7d` (`get_session_info`) in main.py: 404 when
`call_id not in active_sessions`, otherwise report the stored session
(the state is returned unchanged: the handler never mutates the map). -/
def get_session_info (st : MainState) (call_id : String) :
    MainState × Except Nat SessionInfo :=
  match mapLookup st call_id with
  | none => (st, Except.error 404)
  | some session =>
    (st, Except.ok
      { call_id := call_id,
        call_type := session.call_type,
        agent_type := session.agent_type,
        status := "active" })

/-- `DELETE /session/\x7bcall_id\x7d` (`end_session`) in main.py: 404 when
`call_id not in active_sessions`, otherwise `active_sessions.pop(call_id)`
and a confirmation built from the removed record. -/
def end_session (st : MainState) (call_id : String) :
    MainState × Except Nat DeleteSessionResponse :=
  match mapLookup st call_id with
  | none => (st, Except.error 404)
  | some session =>
    (mapErase st call_id, Except.ok
      { message := "Session ended successfully",
        call_id := call_id,
        agent_type := session.agent_type })

/-- The shutdown loop of `lifespan` in main.py: pop every key of
`active_sessions` (iterating over a snapshot of the key list). -/
def pop_each (m : MainState) (ks : List String) : MainState :=
  match ks with
  | [] => m
  | k :: ks => pop_each (mapErase m k) ks

/-- The shutdown half of `lifespan` in main.py. -/
def lifespan_shutdown (m : MainState) : MainState :=
  pop_each m (m.map Prod.fst)

end MainApp

/-- `is404 r` holds when the handler outcome `r` is an HTTP 404 error. -/
def is404 {α : Type} : Except Nat α → Bool
  | .error n => n == 404
  | .ok _ => false

/-- The step traces of every code path in the repository that touches the
SDK, one list per module (app.py, the four POST handlers of main.py, the
four coach services, and the example). -/
def repo_step_traces (sid : String) (ct : String) (cid : String) (st : MainApp.MainState)
    (req : MainApp.CallRequest) (url t1 t2 : String) : List (List Step) :=
  [ App.websocket_session_steps sid,
    (MainApp.create_golf_session st cid req url t1 t2).steps,
    (MainApp.create_general_session st cid req url t1 t2).steps,
    (MainApp.create_fitness_session st cid req url t1 t2).steps,
    (MainApp.create_yoga_session st cid req url t1 t2).steps,
    GolfCoachService.service_steps ct cid,
    GeneralCoachService.service_steps ct cid,
    FitnessCoachService.service_steps ct cid,
    YogaCoachService.service_steps ct cid,
    GeneralCoachExample.service_steps ct cid ]

/-! ## Specification predicates and concrete demonstration states -/

/-- Cleanup-on-shutdown property of app.py and main.py (claim C2): after
the lifespan shutdown sequence the session map is empty, every
not-yet-done background task was cancelled, and every active agent had
`finish()` invoked on it. -/
def app_shutdown_spec (s : AppState) : Prop :=
  (App.lifespan_shutdown s).finalState.ACTIVE_SESSIONS = [] ∧
  (∀ p ∈ s.BACKGROUND_TASKS, p.2.done = false → p.1 ∈ (App.lifespan_shutdown s).cancelled_ids) ∧
  (∀ p ∈ s.ACTIVE_SESSIONS, p.2 ∈ (App.lifespan_shutdown s).finished_agents)

/-- Success behaviour of the four POST handlers of main.py (claim C7):
status 201, the fresh call id bound to the endpoint-specific record on
top of the previous map left intact, response fields matching the
endpoint and the request, and the `call_type` default being
`"default"`. -/
def post_creates_session_spec (st : MainApp.MainState) (cid : String)
    (req : MainApp.CallRequest) (url t1 t2 : String) : Prop :=
  (MainApp.create_golf_session st cid req url t1 t2).status = 201 ∧
  (MainApp.create_golf_session st cid req url t1 t2).sessions =
    (cid, { agent := GolfCoachService.create_golf_agent, call_type := req.call_type,
            agent_type := "golf", created_at := t1 }) :: st ∧
  (MainApp.create_golf_session st cid req url t1 t2).response.call_id = cid ∧
  (MainApp.create_golf_session st cid req url t1 t2).response.agent_type = "golf" ∧
  (MainApp.create_golf_session st cid req url t1 t2).response.call_type = req.call_type ∧
  (MainApp.create_general_session st cid req url t1 t2).status = 201 ∧
  (MainApp.create_general_session st cid req url t1 t2).sessions =
    (cid, { agent := GeneralCoachService.create_general_agent, call_type := req.call_type,
            agent_type := "general", created_at := t1 }) :: st ∧
  (MainApp.create_general_session st cid req url t1 t2).response.call_id = cid ∧
  (MainApp.create_general_session st cid req url t1 t2).response.agent_type = "general" ∧
  (MainApp.create_general_session st cid req url t1 t2).response.call_type = req.call_type ∧
  (MainApp.create_fitness_session st cid req url t1 t2).status = 201 ∧
  (MainApp.create_fitness_session st cid req url t1 t2).sessions =
    (cid, { agent := FitnessCoachService.create_fitness_agent, call_type := req.call_type,
            agent_type := "fitness", created_at := t1 }) :: st ∧
  (MainApp.create_fitness_session st cid req url t1 t2).response.call_id = cid ∧
  (MainApp.create_fitness_session st cid req url t1 t2).response.agent_type = "fitness" ∧
  (MainApp.create_fitness_session st cid req url t1 t2).response.call_type = req.call_type ∧
  (MainApp.create_yoga_session st cid req url t1 t2).status = 201 ∧
  (MainApp.create_yoga_session st cid req url t1 t2).sessions =
    (cid, { agent := YogaCoachService.create_yoga_agent, call_type := req.call_type,
            agent_type := "yoga", created_at := t1 }) :: st ∧
  (MainApp.create_yoga_session st cid req url t1 t2).response.call_id = cid ∧
  (MainApp.create_yoga_session st cid req url t1 t2).response.agent_type = "yoga" ∧
  (MainApp.create_yoga_session st cid req url t1 t2).response.call_type = req.call_type ∧
  ({} : MainApp.CallRequest).call_type = "default"

/-- Frame property of `DELETE /session/` on a present key (claim C9):
exactly the requested entry is removed, every other key keeps its
binding, and the response reports the requested id and the removed
record\x27s agent type. -/
def delete_removes_exactly (st : MainApp.MainState) (cid : String)
    (sr : MainApp.SessionRec) : Prop :=
  mapLookup (MainApp.end_session st cid).1 cid = none ∧
  (∀ k, k ≠ cid → mapLookup (MainApp.end_session st cid).1 k = mapLookup st k) ∧
  (MainApp.end_session st cid).2 =
    Except.ok { message := "Session ended successfully", call_id := cid,
                agent_type := sr.agent_type }

/-- 404-iff and lookup atomicity (claim C8) for `GET /session/` and
`DELETE /session/` of main.py and `GET /sessions/` of app.py: each raises
404 exactly when the id is not a key of its session map, the map is left
unchanged on the 404 path (and by GET always), and the non-404 GET of
main.py reports the stored `call_type` and `agent_type` with status
`"active"`. -/
def lookup_404_spec (st : MainApp.MainState) (cid : String)
    (a : AppState) (sid : String) : Prop :=
  is404 (MainApp.get_session_info st cid).2 = (mapLookup st cid).isNone ∧
  (MainApp.get_session_info st cid).1 = st ∧
  is404 (MainApp.end_session st cid).2 = (mapLookup st cid).isNone ∧
  ((mapLookup st cid).isNone = true → (MainApp.end_session st cid).1 = st) ∧
  (∀ sr, mapLookup st cid = some sr →
    (MainApp.get_session_info st cid).2 =
      Except.ok { call_id := cid, call_type := sr.call_type,
                  agent_type := sr.agent_type, status := "active" }) ∧
  is404 (App.get_session a sid).2 = (mapLookup a.ACTIVE_SESSIONS sid).isNone ∧
  (App.get_session a sid).1 = a

/-- A pending background task, for concrete demonstration states. -/
def demoTask : TaskState := { done := false, cancelled := false }

/-- A concrete app.py state with one active session and one pending
background task. -/
def demoAppState : AppState :=
  { ACTIVE_SESSIONS := [("s1", App.create_agent "s1")],
    BACKGROUND_TASKS := [("s1", demoTask)] }

/-- A concrete stored session record of main.py. -/
def demoSessionRec : MainApp.SessionRec :=
  { agent := GolfCoachService.create_golf_agent, call_type := "default",
    agent_type := "golf", created_at := "t0" }

/-- A concrete main.py state with one active session. -/
def demoMainState : MainApp.MainState := [("c1", demoSessionRec)]

/-! ## Lemmas about the dictionary model -/

theorem mapLookup_erase_self {α : Type} (m : List (String × α)) (k : String) :
    mapLookup (mapErase m k) k = none := by
  induction m with
  | nil => rfl
  | cons p rest ih =>
    obtain ⟨k1, v⟩ := p
    by_cases h : k1 = k
    · simpa [mapErase, h] using ih
    · simpa [mapErase, mapLookup, h] using ih

theorem mapLookup_erase_ne {α : Type} (m : List (String × α)) (k k2 : String)
    (h : k2 ≠ k) : mapLookup (mapErase m k) k2 = mapLookup m k2 := by
  induction m with
  | nil => rfl
  | cons p rest ih =>
    obtain ⟨k1, v⟩ := p
    by_cases h1 : k1 = k
    · simp [mapErase, mapLookup, h1, Ne.symm h, ih]
    · by_cases h2 : k1 = k2
      · simp [mapErase, mapLookup, h1, h2, h]
      · simp [mapErase, mapLookup, h1, h2, ih]

theorem mapLookup_insert_self {α : Type} (m : List (String × α)) (k : String) (v : α) :
    mapLookup (mapInsert m k v) k = some v := by
  simp [mapInsert, mapLookup]

theorem mapErase_eq_of_lookup_none {α : Type} (m : List (String × α)) (k : String)
    (h : mapLookup m k = none) : mapErase m k = m := by
  induction m with
  | nil => rfl
  | cons p rest ih =>
    obtain ⟨k1, v⟩ := p
    by_cases h1 : k1 = k
    · simp [mapLookup, h1] at h
    · simp only [mapLookup, if_neg h1] at h
      simp [mapErase, h1, ih h]

theorem mem_of_mem_mapErase {α : Type} (m : List (String × α)) (k : String)
    (p : String × α) (hp : p ∈ mapErase m k) : p ∈ m ∧ p.1 ≠ k := by
  induction m with
  | nil => simp [mapErase] at hp
  | cons q rest ih =>
    obtain ⟨k1, v⟩ := q
    by_cases h1 : k1 = k
    · simp only [mapErase, if_pos h1] at hp
      obtain ⟨hm, hk⟩ := ih hp
      exact ⟨List.mem_cons_of_mem _ hm, hk⟩
    · simp only [mapErase, if_neg h1] at hp
      rcases List.mem_cons.mp hp with heq | hm
      · subst heq
        exact ⟨List.mem_cons_self _ _, h1⟩
      · obtain ⟨hm2, hk⟩ := ih hm
        exact ⟨List.mem_cons_of_mem _ hm2, hk⟩

theorem key_ne_of_lookup_none {α : Type} (m : List (String × α)) (k : String)
    (h : mapLookup m k = none) (p : String × α) (hp : p ∈ m) : p.1 ≠ k := by
  induction m with
  | nil => simp at hp
  | cons q rest ih =>
    obtain ⟨k1, v⟩ := q
    by_cases h1 : k1 = k
    · simp [mapLookup, h1] at h
    · simp only [mapLookup, if_neg h1] at h
      rcases List.mem_cons.mp hp with heq | hm
      · subst heq
        exact h1
      · exact ih h hm

theorem mapLookup_of_mem_nodup {α : Type} (m : List (String × α))
    (hn : (m.map Prod.fst).Nodup) (k : String) (a : α) (hm : (k, a) ∈ m) :
    mapLookup m k = some a := by
  induction m with
  | nil => simp at hm
  | cons q rest ih =>
    obtain ⟨k1, v⟩ := q
    simp only [List.map_cons, List.nodup_cons] at hn
    rcases List.mem_cons.mp hm with heq | hmem
    · rw [Prod.mk.injEq] at heq
      obtain ⟨hk, hv⟩ := heq
      simp [mapLookup, hk, hv]
    · have hk1 : k1 ≠ k := by
        intro hc
        subst hc
        exact hn.1 (List.mem_map.mpr ⟨(k1, a), hmem, rfl⟩)
      simp only [mapLookup, if_neg hk1]
      exact ih hn.2 hmem

theorem keys_mapErase_sublist {α : Type} (m : List (String × α)) (k : String) :
    ((mapErase m k).map Prod.fst).Sublist (m.map Prod.fst) := by
  induction m with
  | nil => simp [mapErase]
  | cons q rest ih =>
    obtain ⟨k1, v⟩ := q
    by_cases h1 : k1 = k
    · simp only [mapErase, if_pos h1, List.map_cons]
      exact ih.cons _
    · simp only [mapErase, if_neg h1, List.map_cons]
      exact ih.cons₂ _

theorem nodup_keys_mapErase {α : Type} (m : List (String × α)) (k : String)
    (hn : (m.map Prod.fst).Nodup) : ((mapErase m k).map Prod.fst).Nodup :=
  hn.sublist (keys_mapErase_sublist m k)

/-! ## Lemmas about the shutdown loops -/

theorem shutdown_sessions_fst_nil (ks : List String) (m : List (String × AgentConfig))
    (h : ∀ p ∈ m, p.1 ∈ ks) : (App.shutdown_sessions m ks).1 = [] := by
  induction ks generalizing m with
  | nil =>
    cases m with
    | nil => rfl
    | cons p rest => exact absurd (h p (List.mem_cons_self _ _)) (by simp)
  | cons k ks ih =>
    cases hl : mapLookup m k with
    | some a =>
      simp only [App.shutdown_sessions, hl]
      apply ih
      intro p hp
      obtain ⟨hm, hk⟩ := mem_of_mem_mapErase m k p hp
      rcases List.mem_cons.mp (h p hm) with heq | hmem
      · exact absurd heq hk
      · exact hmem
    | none =>
      simp only [App.shutdown_sessions, hl]
      apply ih
      intro p hp
      rcases List.mem_cons.mp (h p hp) with heq | hmem
      · exact absurd heq (key_ne_of_lookup_none m k hl p hp)
      · exact hmem

theorem mem_mapErase_of_mem_ne {α : Type} (m : List (String × α)) (k : String)
    (p : String × α) (hp : p ∈ m) (hne : p.1 ≠ k) : p ∈ mapErase m k := by
  induction m with
  | nil => simp at hp
  | cons q rest ih =>
    obtain ⟨k1, v⟩ := q
    by_cases h1 : k1 = k
    · simp only [mapErase, if_pos h1]
      rcases List.mem_cons.mp hp with heq | hmem
      · subst heq
        exact absurd h1 hne
      · exact ih hmem
    · simp only [mapErase, if_neg h1]
      rcases List.mem_cons.mp hp with heq | hmem
      · exact heq ▸ List.mem_cons_self _ _
      · exact List.mem_cons_of_mem _ (ih hmem)

theorem mem_shutdown_sessions_snd (ks : List String) (m : List (String × AgentConfig))
    (hn : (m.map Prod.fst).Nodup) (k : String) (a : AgentConfig)
    (hm : (k, a) ∈ m) (hk : k ∈ ks) : a ∈ (App.shutdown_sessions m ks).2 := by
  induction ks generalizing m with
  | nil => simp at hk
  | cons k0 ks ih =>
    cases hl : mapLookup m k0 with
    | some a0 =>
      simp only [App.shutdown_sessions, hl]
      by_cases hkk : k = k0
      · subst hkk
        have ha : some a = some a0 := (mapLookup_of_mem_nodup m hn k a hm).symm.trans hl
        rw [Option.some.injEq] at ha
        exact ha ▸ List.mem_cons_self _ _
      · apply List.mem_cons_of_mem
        apply ih (mapErase m k0) (nodup_keys_mapErase m k0 hn)
        · exact mem_mapErase_of_mem_ne m k0 (k, a) hm hkk
        · rcases List.mem_cons.mp hk with heq | hmem
          · exact absurd heq hkk
          · exact hmem
    | none =>
      simp only [App.shutdown_sessions, hl]
      apply ih m hn hm
      rcases List.mem_cons.mp hk with heq | hmem
      · exact absurd heq (key_ne_of_lookup_none m k0 hl (k, a) hm)
      · exact hmem

theorem mem_cancel_tasks_snd (bt : List (String × TaskState)) (p : String × TaskState)
    (hp : p ∈ bt) (hd : p.2.done = false) : p.1 ∈ (App.cancel_tasks bt).2 := by
  induction bt with
  | nil => simp at hp
  | cons q rest ih =>
    obtain ⟨sid, t⟩ := q
    rcases List.mem_cons.mp hp with heq | hmem
    · subst heq
      simp only [App.cancel_tasks]
      rw [hd]
      simp
    · by_cases ht : t.done
      · simp only [App.cancel_tasks, ht]
        simpa using ih hmem
      · simp only [App.cancel_tasks, Bool.not_eq_true] at ht ⊢
        rw [ht]
        simpa using List.mem_cons_of_mem _ (ih hmem)

theorem pop_each_nil (ks : List String) (m : MainApp.MainState)
    (h : ∀ p ∈ m, p.1 ∈ ks) : MainApp.pop_each m ks = [] := by
  induction ks generalizing m with
  | nil =>
    cases m with
    | nil => rfl
    | cons p rest => exact absurd (h p (List.mem_cons_self _ _)) (by simp)
  | cons k ks ih =>
    simp only [MainApp.pop_each]
    apply ih
    intro p hp
    obtain ⟨hm, hk⟩ := mem_of_mem_mapErase m k p hp
    rcases List.mem_cons.mp (h p hm) with heq | hmem
    · exact absurd heq hk
    · exact hmem

/-! ## Claim theorems -/

/-- Claim C1: the `finally` block of the `/ws` connection handler in
app.py, which runs on every termination of the handler (client
`disconnect` command, `WebSocketDisconnect`, worker completion, or any
exception), leaves the generated `session_id` absent from both
`ACTIVE_SESSIONS` and `BACKGROUND_TASKS`, and leaves the session\x27s
background task, if one was registered, no longer pending. -/
theorem c1_ws_cleanup_on_disconnect (s : AppState) (session_id : String) :
    mapLookup (App.ws_finally s session_id).1.ACTIVE_SESSIONS session_id = none ∧
    mapLookup (App.ws_finally s session_id).1.BACKGROUND_TASKS session_id = none ∧
    App.optTaskDone (App.ws_finally s session_id).2 = true := by
  refine ⟨?_, ?_, ?_⟩
  · exact mapLookup_erase_self _ _
  · exact mapLookup_erase_self _ _
  · unfold App.ws_finally
    cases h : mapLookup s.BACKGROUND_TASKS session_id with
    | none => simp [h, App.optTaskDone]
    | some t =>
      by_cases ht : t.done
      · simp [h, ht, App.optTaskDone]
      · simp [h, ht, App.optTaskDone]

/-- Claim C2: after the lifespan shutdown sequence, the session map is
empty (`ACTIVE_SESSIONS` in app.py, `active_sessions` in main.py); in
app.py every task of `BACKGROUND_TASKS` that was not yet done has been
cancelled and every agent of `ACTIVE_SESSIONS` has had `finish()`
invoked on it.  The hypothesis is the dictionary invariant that the keys
of `ACTIVE_SESSIONS` are distinct. -/
theorem c2_lifespan_shutdown_cleanup (s : AppState) (m : MainApp.MainState)
    (h : (s.ACTIVE_SESSIONS.map Prod.fst).Nodup) :
    app_shutdown_spec s ∧ MainApp.lifespan_shutdown m = [] := by
  constructor
  · refine ⟨?_, ?_, ?_⟩
    · exact shutdown_sessions_fst_nil _ _ (fun p hp => List.mem_map_of_mem _ hp)
    · intro p hp hd
      exact mem_cancel_tasks_snd _ p hp hd
    · intro p hp
      exact mem_shutdown_sessions_snd _ _ h p.1 p.2 hp (List.mem_map_of_mem _ hp)
  · exact pop_each_nil _ _ (fun p hp => List.mem_map_of_mem _ hp)

/-- Witness for C2 at a concrete state with one session and one pending
task. -/
theorem c2_lifespan_shutdown_cleanup_witness :
    (demoAppState.ACTIVE_SESSIONS.map Prod.fst).Nodup ∧
    (app_shutdown_spec demoAppState ∧ MainApp.lifespan_shutdown demoMainState = []) :=
  ⟨by simp [demoAppState],
   c2_lifespan_shutdown_cleanup demoAppState demoMainState (by simp [demoAppState])⟩

/-- Counterexample to claim C3 as stated: the successful `POST /golf`
handler of main.py constructs an agent but its code path contains neither
`agent.join` nor `agent.finish`. -/
theorem c3_counterexample :
    (MainApp.create_golf_session [] "c1" {} "url" "t1" "t2").steps.any step_is_construct = true ∧
    (MainApp.create_golf_session [] "c1" {} "url" "t1" "t2").steps.any step_is_join = false ∧
    (MainApp.create_golf_session [] "c1" {} "url" "t1" "t2").steps.any step_is_finish = false :=
  ⟨rfl, rfl, rfl⟩

/-- Claim C3 as amended: the `/ws` session path of app.py and the
`join_*_call` paths of the four coach services and of the example join
and finish the agents they run, but the four POST handlers of main.py
construct an agent without ever joining it to a call or running
`agent.finish()`. -/
theorem c3_amended_agent_start (sid ct cid : String) (st : MainApp.MainState)
    (req : MainApp.CallRequest) (url t1 t2 : String) :
    ((App.websocket_session_steps sid).any step_is_construct = true ∧
     (App.websocket_session_steps sid).any step_is_join = true ∧
     (App.websocket_session_steps sid).any step_is_finish = true) ∧
    ((GolfCoachService.service_steps ct cid).any step_is_join = true ∧
     (GolfCoachService.service_steps ct cid).any step_is_finish = true ∧
     (GeneralCoachService.service_steps ct cid).any step_is_join = true ∧
     (GeneralCoachService.service_steps ct cid).any step_is_finish = true ∧
     (FitnessCoachService.service_steps ct cid).any step_is_join = true ∧
     (FitnessCoachService.service_steps ct cid).any step_is_finish = true ∧
     (YogaCoachService.service_steps ct cid).any step_is_join = true ∧
     (YogaCoachService.service_steps ct cid).any step_is_finish = true ∧
     (GeneralCoachExample.service_steps ct cid).any step_is_join = true ∧
     (GeneralCoachExample.service_steps ct cid).any step_is_finish = true) ∧
    ((MainApp.create_golf_session st cid req url t1 t2).steps.any step_is_construct = true ∧
     (MainApp.create_golf_session st cid req url t1 t2).steps.any step_is_join = false ∧
     (MainApp.create_golf_session st cid req url t1 t2).steps.any step_is_finish = false ∧
     (MainApp.create_general_session st cid req url t1 t2).steps.any step_is_construct = true ∧
     (MainApp.create_general_session st cid req url t1 t2).steps.any step_is_join = false ∧
     (MainApp.create_general_session st cid req url t1 t2).steps.any step_is_finish = false ∧
     (MainApp.create_fitness_session st cid req url t1 t2).steps.any step_is_construct = true ∧
     (MainApp.create_fitness_session st cid req url t1 t2).steps.any step_is_join = false ∧
     (MainApp.create_fitness_session st cid req url t1 t2).steps.any step_is_finish = false ∧
     (MainApp.create_yoga_session st cid req url t1 t2).steps.any step_is_construct = true ∧
     (MainApp.create_yoga_session st cid req url t1 t2).steps.any step_is_join = false ∧
     (MainApp.create_yoga_session st cid req url t1 t2).steps.any step_is_finish = false) :=
  ⟨⟨rfl, rfl, rfl⟩,
   ⟨rfl, rfl, rfl, rfl, rfl, rfl, rfl, rfl, rfl, rfl⟩,
   ⟨rfl, rfl, rfl, rfl, rfl, rfl, rfl, rfl, rfl, rfl, rfl, rfl⟩⟩

/-- Counterexample to claim C4 as stated: the standalone execution path
of golf_coach_service.py constructs an agent but records it in no
in-process store, and the module has no module-level session map. -/
theorem c4_counterexample :
    (GolfCoachService.service_steps "default" "c1").any step_is_construct = true ∧
    (GolfCoachService.service_steps "default" "c1").any step_is_store = false :=
  ⟨rfl, rfl⟩

/-- Claim C4 as amended: app.py and main.py record every agent they
construct in their module-level session maps, but the four coach-service
modules and general_coach_example.py construct and run agents without
recording them in any in-process store. -/
theorem c4_amended_session_tracking (sid ct cid : String) (st : MainApp.MainState)
    (req : MainApp.CallRequest) (url t1 t2 : String) :
    storeTargets (App.websocket_session_steps sid) =
      [("ACTIVE_SESSIONS", sid), ("BACKGROUND_TASKS", sid)] ∧
    storeTargets (MainApp.create_golf_session st cid req url t1 t2).steps =
      [("active_sessions", cid)] ∧
    storeTargets (MainApp.create_general_session st cid req url t1 t2).steps =
      [("active_sessions", cid)] ∧
    storeTargets (MainApp.create_fitness_session st cid req url t1 t2).steps =
      [("active_sessions", cid)] ∧
    storeTargets (MainApp.create_yoga_session st cid req url t1 t2).steps =
      [("active_sessions", cid)] ∧
    (GolfCoachService.service_steps ct cid).any step_is_store = false ∧
    (GeneralCoachService.service_steps ct cid).any step_is_store = false ∧
    (FitnessCoachService.service_steps ct cid).any step_is_store = false ∧
    (YogaCoachService.service_steps ct cid).any step_is_store = false ∧
    (GeneralCoachExample.service_steps ct cid).any step_is_store = false :=
  ⟨rfl, rfl, rfl, rfl, rfl, rfl, rfl, rfl, rfl, rfl⟩

/-- Claim C5: every one of the seven source files constructs an agent
from the third-party library — its code path contains exactly one SDK
`Agent` construction, whose edge is `getstream.Edge()`, whose LLM is
`gemini.Realtime(...)` from the SDK plugins, and whose instructions are
nonempty (main.py constructs through the four imported coach-service
factories). -/
theorem c5_constructs_agent_from_sdk (sid ct cid : String) (st : MainApp.MainState)
    (req : MainApp.CallRequest) (url t1 t2 : String) :
    (constructedConfigs (App.websocket_session_steps sid) = [App.create_agent sid] ∧
     (App.create_agent sid).edge = EdgeSpec.getstreamEdge ∧
     (App.create_agent sid).llm = LLMSpec.geminiRealtime none ∧
     (App.create_agent sid).instructions.isEmpty = false) ∧
    (constructedConfigs (MainApp.create_golf_session st cid req url t1 t2).steps =
       [GolfCoachService.create_golf_agent] ∧
     constructedConfigs (MainApp.create_general_session st cid req url t1 t2).steps =
       [GeneralCoachService.create_general_agent] ∧
     constructedConfigs (MainApp.create_fitness_session st cid req url t1 t2).steps =
       [FitnessCoachService.create_fitness_agent] ∧
     constructedConfigs (MainApp.create_yoga_session st cid req url t1 t2).steps =
       [YogaCoachService.create_yoga_agent]) ∧
    (constructedConfigs (GolfCoachService.service_steps ct cid) =
       [GolfCoachService.create_golf_agent] ∧
     GolfCoachService.create_golf_agent.edge = EdgeSpec.getstreamEdge ∧
     GolfCoachService.create_golf_agent.llm = LLMSpec.geminiRealtime (some 3) ∧
     GolfCoachService.create_golf_agent.instructions.isEmpty = false) ∧
    (constructedConfigs (GeneralCoachService.service_steps ct cid) =
       [GeneralCoachService.create_general_agent] ∧
     GeneralCoachService.create_general_agent.edge = EdgeSpec.getstreamEdge ∧
     GeneralCoachService.create_general_agent.llm = LLMSpec.geminiRealtime none ∧
     GeneralCoachService.create_general_agent.instructions.isEmpty = false) ∧
    (constructedConfigs (FitnessCoachService.service_steps ct cid) =
       [FitnessCoachService.create_fitness_agent] ∧
     FitnessCoachService.create_fitness_agent.edge = EdgeSpec.getstreamEdge ∧
     FitnessCoachService.create_fitness_agent.llm = LLMSpec.geminiRealtime (some 3) ∧
     FitnessCoachService.create_fitness_agent.instructions.isEmpty = false) ∧
    (constructedConfigs (YogaCoachService.service_steps ct cid) =
       [YogaCoachService.create_yoga_agent] ∧
     YogaCoachService.create_yoga_agent.edge = EdgeSpec.getstreamEdge ∧
     YogaCoachService.create_yoga_agent.llm = LLMSpec.geminiRealtime (some 3) ∧
     YogaCoachService.create_yoga_agent.instructions.isEmpty = false) ∧
    (constructedConfigs (GeneralCoachExample.service_steps ct cid) =
       [GeneralCoachExample.create_agent] ∧
     GeneralCoachExample.create_agent.edge = EdgeSpec.getstreamEdge ∧
     GeneralCoachExample.create_agent.llm = LLMSpec.geminiRealtime none ∧
     GeneralCoachExample.create_agent.instructions.isEmpty = false) :=
  ⟨⟨rfl, rfl, rfl, rfl⟩, ⟨rfl, rfl, rfl, rfl⟩, ⟨rfl, rfl, rfl, rfl⟩,
   ⟨rfl, rfl, rfl, rfl⟩, ⟨rfl, rfl, rfl, rfl⟩, ⟨rfl, rfl, rfl, rfl⟩,
   ⟨rfl, rfl, rfl, rfl⟩⟩

/-- Claim C6: the session maps are keyed by call id.  In app.py the
worker sets `call_id = session_id`, the only `create_call` of a `/ws`
session uses that id, and both module-level maps store the session under
the same id; in main.py each POST handler creates the call under the
generated `call_id`, stores the session under it, binds it in
`active_sessions`, and returns it in the response. -/
theorem c6_store_keyed_by_call_id (sid cid : String) (st : MainApp.MainState)
    (req : MainApp.CallRequest) (url t1 t2 : String) :
    App.agent_worker_call_id sid = sid ∧
    createCallIds (App.websocket_session_steps sid) = [sid] ∧
    storeTargets (App.websocket_session_steps sid) =
      [("ACTIVE_SESSIONS", sid), ("BACKGROUND_TASKS", sid)] ∧
    (createCallIds (MainApp.create_golf_session st cid req url t1 t2).steps = [cid] ∧
     storeTargets (MainApp.create_golf_session st cid req url t1 t2).steps =
       [("active_sessions", cid)] ∧
     (MainApp.create_golf_session st cid req url t1 t2).response.call_id = cid ∧
     mapLookup (MainApp.create_golf_session st cid req url t1 t2).sessions cid =
       some { agent := GolfCoachService.create_golf_agent, call_type := req.call_type,
              agent_type := "golf", created_at := t1 }) ∧
    (createCallIds (MainApp.create_general_session st cid req url t1 t2).steps = [cid] ∧
     storeTargets (MainApp.create_general_session st cid req url t1 t2).steps =
       [("active_sessions", cid)] ∧
     (MainApp.create_general_session st cid req url t1 t2).response.call_id = cid ∧
     mapLookup (MainApp.create_general_session st cid req url t1 t2).sessions cid =
       some { agent := GeneralCoachService.create_general_agent, call_type := req.call_type,
              agent_type := "general", created_at := t1 }) ∧
    (createCallIds (MainApp.create_fitness_session st cid req url t1 t2).steps = [cid] ∧
     storeTargets (MainApp.create_fitness_session st cid req url t1 t2).steps =
       [("active_sessions", cid)] ∧
     (MainApp.create_fitness_session st cid req url t1 t2).response.call_id = cid ∧
     mapLookup (MainApp.create_fitness_session st cid req url t1 t2).sessions cid =
       some { agent := FitnessCoachService.create_fitness_agent, call_type := req.call_type,
              agent_type := "fitness", created_at := t1 }) ∧
    (createCallIds (MainApp.create_yoga_session st cid req url t1 t2).steps = [cid] ∧
     storeTargets (MainApp.create_yoga_session st cid req url t1 t2).steps =
       [("active_sessions", cid)] ∧
     (MainApp.create_yoga_session st cid req url t1 t2).response.call_id = cid ∧
     mapLookup (MainApp.create_yoga_session st cid req url t1 t2).sessions cid =
       some { agent := YogaCoachService.create_yoga_agent, call_type := req.call_type,
              agent_type := "yoga", created_at := t1 }) :=
  ⟨rfl, rfl, rfl,
   ⟨rfl, rfl, rfl, mapLookup_insert_self _ _ _⟩,
   ⟨rfl, rfl, rfl, mapLookup_insert_self _ _ _⟩,
   ⟨rfl, rfl, rfl, mapLookup_insert_self _ _ _⟩,
   ⟨rfl, rfl, rfl, mapLookup_insert_self _ _ _⟩⟩

/-- Claim C7: every successful POST to `/golf`, `/general`, `/fitness`
or `/yoga` answers 201 with a fresh `call_id` that becomes a new key of
`active_sessions`, leaving all pre-existing entries in place; the stored
and returned `agent_type` matches the endpoint, and the stored and
returned `call_type` equals the request\x27s (whose default is
`"default"`).  The hypothesis expresses freshness of the generated
UUID. -/
theorem c7_post_creates_session (st : MainApp.MainState) (cid : String)
    (req : MainApp.CallRequest) (url t1 t2 : String)
    (h : mapLookup st cid = none) :
    post_creates_session_spec st cid req url t1 t2 := by
  have he : mapErase st cid = st := mapErase_eq_of_lookup_none st cid h
  have hgolf : (MainApp.create_golf_session st cid req url t1 t2).sessions =
      (cid, { agent := GolfCoachService.create_golf_agent, call_type := req.call_type,
              agent_type := "golf", created_at := t1 }) :: st := by
    show mapInsert st cid _ = _
    unfold mapInsert
    rw [he]
  have hgen : (MainApp.create_general_session st cid req url t1 t2).sessions =
      (cid, { agent := GeneralCoachService.create_general_agent, call_type := req.call_type,
              agent_type := "general", created_at := t1 }) :: st := by
    show mapInsert st cid _ = _
    unfold mapInsert
    rw [he]
  have hfit : (MainApp.create_fitness_session st cid req url t1 t2).sessions =
      (cid, { agent := FitnessCoachService.create_fitness_agent, call_type := req.call_type,
              agent_type := "fitness", created_at := t1 }) :: st := by
    show mapInsert st cid _ = _
    unfold mapInsert
    rw [he]
  have hyoga : (MainApp.create_yoga_session st cid req url t1 t2).sessions =
      (cid, { agent := YogaCoachService.create_yoga_agent, call_type := req.call_type,
              agent_type := "yoga", created_at := t1 }) :: st := by
    show mapInsert st cid _ = _
    unfold mapInsert
    rw [he]
  exact ⟨rfl, hgolf, rfl, rfl, rfl,
         rfl, hgen, rfl, rfl, rfl,
         rfl, hfit, rfl, rfl, rfl,
         rfl, hyoga, rfl, rfl, rfl,
         rfl⟩

/-- Witness for C7: a fresh id against a concrete one-session state. -/
theorem c7_post_creates_session_witness :
    mapLookup demoMainState "c9" = none ∧
    post_creates_session_spec demoMainState "c9" {} "url" "t1" "t2" :=
  ⟨by simp [demoMainState, mapLookup],
   c7_post_creates_session demoMainState "c9" {} "url" "t1" "t2"
     (by simp [demoMainState, mapLookup])⟩

/-- Claim C8: `GET /session/` and `DELETE /session/` of main.py and
`GET /sessions/` of app.py answer 404 exactly when the requested id is
not a key of the session map; the 404 path leaves the map unchanged, and
the non-404 GET of main.py reports the stored `call_type` and
`agent_type` with status `"active"` without modifying the map. -/
theorem c8_lookup_404_iff (st : MainApp.MainState) (cid : String)
    (a : AppState) (sid : String) :
    lookup_404_spec st cid a sid := by
  unfold lookup_404_spec
  refine ⟨?_, ?_, ?_, ?_, ?_, ?_, ?_⟩
  · cases h : mapLookup st cid with
    | none => simp [MainApp.get_session_info, h, is404]
    | some sr => simp [MainApp.get_session_info, h, is404]
  · cases h : mapLookup st cid with
    | none => simp [MainApp.get_session_info, h]
    | some sr => simp [MainApp.get_session_info, h]
  · cases h : mapLookup st cid with
    | none => simp [MainApp.end_session, h, is404]
    | some sr => simp [MainApp.end_session, h, is404]
  · intro hn
    cases h : mapLookup st cid with
    | none => simp [MainApp.end_session, h]
    | some sr =>
      rw [h] at hn
      simp at hn
  · intro sr h
    simp [MainApp.get_session_info, h]
  · cases h : mapLookup a.ACTIVE_SESSIONS sid with
    | none => simp [App.get_session, h, is404]
    | some agent => simp [App.get_session, h, is404]
  · cases h : mapLookup a.ACTIVE_SESSIONS sid with
    | none => simp [App.get_session, h]
    | some agent => simp [App.get_session, h]

/-- Witness for C8 at a concrete state whose map has the requested key. -/
theorem c8_lookup_404_iff_witness :
    lookup_404_spec demoMainState "c1" demoAppState "s1" :=
  c8_lookup_404_iff demoMainState "c1" demoAppState "s1"

/-- Claim C9: deleting a present session removes exactly that entry and
reports the requested id with the removed entry\x27s agent type. -/
theorem c9_delete_frame (st : MainApp.MainState) (cid : String)
    (sr : MainApp.SessionRec) (h : mapLookup st cid = some sr) :
    delete_removes_exactly st cid sr := by
  unfold delete_removes_exactly
  refine ⟨?_, ?_, ?_⟩
  · simp only [MainApp.end_session, h]
    exact mapLookup_erase_self st cid
  · intro k hk
    simp only [MainApp.end_session, h]
    exact mapLookup_erase_ne st cid k hk
  · simp [MainApp.end_session, h]

/-- Witness for C9 at a concrete one-session state. -/
theorem c9_delete_frame_witness :
    mapLookup demoMainState "c1" = some demoSessionRec ∧
    delete_removes_exactly demoMainState "c1" demoSessionRec :=
  ⟨rfl, c9_delete_frame demoMainState "c1" demoSessionRec rfl⟩

/-- Claim C10: every LLM response, media-edge operation and
pose-detection step occurring in any code path of the repository is an
invocation of the external `vision_agents` SDK, and no code path
performs a locally computed inference, transport or pose-estimation
step. -/
theorem c10_sdk_delegation (sid ct cid : String) (st : MainApp.MainState)
    (req : MainApp.CallRequest) (url t1 t2 : String) :
    (repo_step_traces sid ct cid st req url t1 t2).all
      (fun tr => tr.all
        (fun s => !(step_is_llm_media_or_pose s) || step_is_sdk_invocation s)) = true ∧
    (repo_step_traces sid ct cid st req url t1 t2).all
      (fun tr => tr.all (fun s => !(step_is_local_computation s))) = true :=
  ⟨rfl, rfl⟩
